import Mathlib

/-!
gammy: adaptive screen brightness (src/main.cpp)

A shallow embedding of the two loops of `src/main.cpp`:

* `app` (lines 143-274), the controller: samples the screen, accumulates the
  luminance change, decides on a new target brightness and signals the actuator;
* `adjustBrightness` (lines 68-121), the actuator: waits for a new generation
  (`callcnt`) and ramps `scr_br` one unit at a time toward `target_br`.

Every statement of the two functions that touches the shared data is a Lean
function on `State`; the sequential compositions (`appIteration`, `adjRamp`)
and the interleaved transition system (`step`) are built from those same
functions.

Conventions.
* `int` values are brightness levels, slider settings and their sums; signed
  overflow is undefined in C++, and they are modelled as `Int`.
* `callcnt`, `c`, `old_c` are `size_t`; the counter moves by one per decision,
  so its wrap at `2^64` is out of reach and they are modelled as `Nat`.
* `default_brightness` (main.h) and the array `cfg` (utils.h) are declared
  outside main.cpp: the former is a parameter, the latter a record with one
  field per index that main.cpp uses.
* The non-Windows branch of each `#ifdef _WIN32` is the one modelled; both
  branches touch the shared data in the same way.
* The two threads are interleaved statement by statement (`AppPc`, `AdjPc`);
  a statement reads and writes the shared data in one go. Writes from outside
  main.cpp (settings, pause, quit, the signal handler) are actions of their own.
* `args.cvr.wait(lock, pred)` of line 80 is `while (!pred()) wait(lock)`: the
  predicate is evaluated (`AdjPc.wait`), and when it is false the thread goes
  on to block (`AdjPc.park`, then `AdjPc.blocked`). `notify_one` wakes a thread
  that is blocked and is lost otherwise; `app` never takes `args.mtx`, so its
  increment and notification can fall between the evaluation and the block.
  Wake-ups without a notification, which the standard allows but does not
  promise, are left out. The wait of line 188 on `pausethr` is modelled by its
  predicate alone.
-/

namespace Gammy

/-- The entries `cfg[MinBr]`, `cfg[MaxBr]`, ... read by main.cpp. -/
structure Cfg where
  MinBr : Int
  MaxBr : Int
  Offset : Int
  Temp : Int
  Speed : Int
  Threshold : Int
  Polling_rate : Int
  deriving DecidableEq, Repr

/-- Control points of `app`, one per statement that touches shared data. -/
inductive AppPc where
  | loop      -- line 183: `while (!args.w->quit)`
  | pause     -- line 188: wait until `args.w->run`
  | sample    -- lines 208-215: capture, `img_br`, `img_delta +=`, `call_once`
  | test      -- line 217: `img_delta > cfg[Threshold] || force`
  | raw       -- line 219
  | clamp     -- lines 221-227
  | compare   -- lines 233-243
  | unforce   -- line 245
  | tail      -- lines 248-256
  | shutdown  -- lines 262-266
  | done      -- line 272: `t1.join()`
  deriving DecidableEq, Repr

/-- Control points of `adjustBrightness`. -/
inductive AdjPc where
  | loop      -- line 73: `while (!args.w->quit)`
  | wait      -- line 80: the predicate `callcnt > old_c` is evaluated
  | park      -- line 80: predicate was false, about to block on `cvr`
  | blocked   -- line 80: blocked on `cvr` until notified
  | capture   -- line 83
  | pace      -- lines 89-92
  | guard     -- line 94: `c == callcnt && run`
  | move      -- lines 96-98
  | set       -- lines 100-112
  | record    -- line 115
  | done      -- the thread has returned
  deriving DecidableEq, Repr

/-- The data of both threads: `struct Args`, the global `scr_br`, `cfg`, the
window flags, the locals of `app` and of `adjustBrightness`, the record of the
calls made to the outside, and the two control points. -/
structure State where
  img_br : Int
  target_br : Int
  img_delta : Int
  callcnt : Nat
  scr_br : Int
  cfg : Cfg
  run : Bool
  quit : Bool
  old_imgBr : Int
  old_min : Int
  old_max : Int
  old_offset : Int
  force : Bool
  /-- The `std::once_flag f`: true once the `call_once` body has run. -/
  f : Bool
  c : Nat
  old_c : Nat
  sleeptime : Int
  /-- Number of `args.cvr.notify_one()` calls made so far. -/
  notified : Nat
  /-- True when a notification has reached the blocked actuator. -/
  woken : Bool
  /-- Arguments of the `setXF86Gamma` calls made so far, oldest first. -/
  gamma : List (Int × Int)
  appPc : AppPc
  adjPc : AdjPc
  deriving DecidableEq, Repr

/-- State at the start of the two loops: `Args` default-initialised, `scr_br`
at `default_brightness`, the locals of lines 70-71 and 149-154, and the gamma
call of line 171 already made. -/
def init (default_brightness : Int) (cfg : Cfg) (run : Bool) : State :=
  { img_br := 0, target_br := 0, img_delta := 0, callcnt := 0,
    scr_br := default_brightness, cfg := cfg, run := run, quit := false,
    old_imgBr := 0, old_min := 0, old_max := 0, old_offset := 0,
    force := false, f := false, c := 0, old_c := 0, sleeptime := 0,
    notified := 0, woken := false, gamma := [(default_brightness, cfg.Temp)],
    appPc := AppPc.loop, adjPc := AdjPc.loop }

/-! ## The controller, `app` -/

/-- `args.cvr.notify_one()`: counted, and it wakes the actuator only when the
actuator is blocked on the condition variable at that moment. -/
def notifyOne (s : State) : State :=
  { s with notified := s.notified + 1,
           woken := s.woken || decide (s.adjPc = AdjPc.blocked) }

/-- Lines 212-215: `img` is the value returned by `calcBrightness`. -/
def appSample (img : Int) (s : State) : State :=
  let s1 := { s with img_br := img }
  let s2 := { s1 with img_delta := s1.img_delta + ((s1.old_imgBr - s1.img_br).natAbs : Int) }
  if s2.f then s2 else { s2 with img_delta := 0, f := true }

/-- Line 217: the condition of the decision branch. -/
def appTrigger (s : State) : Bool :=
  decide (s.img_delta > s.cfg.Threshold) || s.force

/-- Line 219. -/
def appRaw (default_brightness : Int) (s : State) : State :=
  { s with target_br := default_brightness - s.img_br + s.cfg.Offset }

/-- Lines 221-227. -/
def appClamp (s : State) : State :=
  if s.target_br > s.cfg.MaxBr then { s with target_br := s.cfg.MaxBr }
  else if s.target_br < s.cfg.MinBr then { s with target_br := s.cfg.MinBr }
  else s

/-- Lines 233-243. -/
def appCompare (s : State) : State :=
  if s.target_br ≠ s.scr_br then notifyOne { s with callcnt := s.callcnt + 1 }
  else { s with img_delta := 0 }

/-- Line 245. -/
def appUnforce (s : State) : State :=
  { s with force := false }

/-- Lines 219-245, the body of the decision branch. -/
def appDecision (default_brightness : Int) (s : State) : State :=
  appUnforce (appCompare (appClamp (appRaw default_brightness s)))

/-- Lines 248-256. -/
def appTail (s : State) : State :=
  let s1 :=
    if s.cfg.MinBr ≠ s.old_min ∨ s.cfg.MaxBr ≠ s.old_max ∨ s.cfg.Offset ≠ s.old_offset
    then { s with force := true } else s
  { s1 with old_imgBr := s1.img_br, old_min := s1.cfg.MinBr,
            old_max := s1.cfg.MaxBr, old_offset := s1.cfg.Offset }

/-- Lines 212-256: one pass through the body of the controller loop for a
frame of brightness `img`, with nothing else running in between. -/
def appIteration (default_brightness : Int) (img : Int) (s : State) : State :=
  let s1 := appSample img s
  appTail (if appTrigger s1 then appDecision default_brightness s1 else s1)

/-- Lines 265-266: the final increment and notification. -/
def appShutdown (s : State) : State :=
  notifyOne { s with callcnt := s.callcnt + 1 }

/-- The controller run over a list of frames, oldest first. -/
def appRun (default_brightness : Int) (imgs : List Int) (s : State) : State :=
  imgs.foldl (fun t img => appIteration default_brightness img t) s

/-! ## The actuator, `adjustBrightness` -/

/-- Line 80: the predicate of the wait. -/
def adjPred (s : State) : Bool :=
  decide (s.callcnt > s.old_c)

/-- Line 89, the interval before the adjustment of line 92. -/
def adjInterval (img_delta speed : Int) : Int :=
  Int.tdiv (100 - Int.tdiv img_delta 4) speed

/-- Lines 89-92. The division by `cfg[Speed]` has no result when it is 0. -/
def adjPace (s : State) : Option State :=
  if s.cfg.Speed = 0 then none
  else
    let s1 := { s with sleeptime := adjInterval s.img_delta s.cfg.Speed }
    let s2 := { s1 with img_delta := 0 }
    some (if s2.scr_br < s2.target_br then { s2 with sleeptime := Int.tdiv s2.sleeptime 3 }
          else s2)

/-- Line 94: the guard of the inner loop. -/
def adjGuard (s : State) : Bool :=
  decide (s.c = s.callcnt) && s.run

/-- Lines 96-98: `none` is the `break`. -/
def adjMove (s : State) : Option State :=
  if s.scr_br < s.target_br then some { s with scr_br := s.scr_br + 1 }
  else if s.scr_br > s.target_br then some { s with scr_br := s.scr_br - 1 }
  else none

/-- Lines 100-108: `none` is the `break`. -/
def adjSet (s : State) : Option State :=
  if !s.quit then some { s with gamma := s.gamma ++ [(s.scr_br, s.cfg.Temp)] }
  else none

/-- Line 115. -/
def adjRecord (s : State) : State :=
  { s with old_c := s.c }

/-- Lines 94-113: the inner loop run with nothing else in between, for at
most `fuel` passes of the guard; `none` when the fuel does not suffice. -/
def adjRamp : Nat → State → Option State
  | 0, _ => none
  | fuel + 1, s =>
    if adjGuard s then
      match adjMove s with
      | none => some s
      | some s1 =>
        match adjSet s1 with
        | none => some s1
        | some s2 => adjRamp fuel s2
    else some s

/-! ## The two threads and their surroundings, interleaved -/

/-- One statement of `app`; `img` is used only by the sampling statement.
`none` when the thread cannot move (paused, or returned). -/
def appStep (default_brightness : Int) (img : Int) (s : State) : Option State :=
  match s.appPc with
  | AppPc.loop =>
    some (if s.quit then { s with appPc := AppPc.shutdown } else { s with appPc := AppPc.pause })
  | AppPc.pause => if s.run then some { s with appPc := AppPc.sample } else none
  | AppPc.sample => some { appSample img s with appPc := AppPc.test }
  | AppPc.test =>
    some (if appTrigger s then { s with appPc := AppPc.raw } else { s with appPc := AppPc.tail })
  | AppPc.raw => some { appRaw default_brightness s with appPc := AppPc.clamp }
  | AppPc.clamp => some { appClamp s with appPc := AppPc.compare }
  | AppPc.compare => some { appCompare s with appPc := AppPc.unforce }
  | AppPc.unforce => some { appUnforce s with appPc := AppPc.tail }
  | AppPc.tail => some { appTail s with appPc := AppPc.loop }
  | AppPc.shutdown => some { appShutdown s with appPc := AppPc.done }
  | AppPc.done => none

/-- One statement of `adjustBrightness`. `none` when the thread cannot move:
blocked on the condition variable without a notification, stopped by the
division of line 89, or returned. -/
def adjStep (s : State) : Option State :=
  match s.adjPc with
  | AdjPc.loop =>
    some (if s.quit then { s with adjPc := AdjPc.done } else { s with adjPc := AdjPc.wait })
  | AdjPc.wait =>
    some (if adjPred s then { s with adjPc := AdjPc.capture } else { s with adjPc := AdjPc.park })
  | AdjPc.park => some { s with adjPc := AdjPc.blocked, woken := false }
  | AdjPc.blocked => if s.woken then some { s with adjPc := AdjPc.wait, woken := false } else none
  | AdjPc.capture => some { s with c := s.callcnt, adjPc := AdjPc.pace }
  | AdjPc.pace => (adjPace s).map (fun t => { t with adjPc := AdjPc.guard })
  | AdjPc.guard =>
    some (if adjGuard s then { s with adjPc := AdjPc.move } else { s with adjPc := AdjPc.record })
  | AdjPc.move =>
    some (match adjMove s with
          | some t => { t with adjPc := AdjPc.set }
          | none => { s with adjPc := AdjPc.record })
  | AdjPc.set =>
    some (match adjSet s with
          | some t => { t with adjPc := AdjPc.guard }
          | none => { s with adjPc := AdjPc.record })
  | AdjPc.record => some { adjRecord s with adjPc := AdjPc.loop }
  | AdjPc.done => none

/-- What can happen next: a statement of either thread, or a write from
outside the two loops (the settings window, the signal handler). -/
inductive Action where
  | app (img : Int)
  | adj
  /-- The settings are changed. -/
  | setCfg (cfg : Cfg)
  /-- The window pauses or resumes the controller. -/
  | setRun (b : Bool)
  /-- The window raises the flag behind `args.w->force`. -/
  | setForce
  /-- The window asks to quit. -/
  | setQuit
  /-- Lines 358-362 of `sig_handler`: `run` and `quit` are both set. -/
  | signal
  deriving DecidableEq, Repr

/-- The state after an action, `none` when the action cannot happen. -/
def step (default_brightness : Int) (a : Action) (s : State) : Option State :=
  match a with
  | Action.app img => appStep default_brightness img s
  | Action.adj => adjStep s
  | Action.setCfg cfg => some { s with cfg := cfg }
  | Action.setRun b => some { s with run := b }
  | Action.setForce => some { s with force := true }
  | Action.setQuit => some { s with quit := true }
  | Action.signal => some { s with run := true, quit := true }

/-- The state after a schedule of actions, `none` when one cannot happen. -/
def exec (default_brightness : Int) : List Action → State → Option State
  | [], s => some s
  | a :: as, s =>
    match step default_brightness a s with
    | none => none
    | some t => exec default_brightness as t

/-- The states the two loops can be in, started from `init`. -/
inductive Reachable (default_brightness : Int) : State → Prop where
  | start (cfg : Cfg) (run : Bool) : Reachable default_brightness (init default_brightness cfg run)
  | next {s t : State} (a : Action) :
      Reachable default_brightness s → step default_brightness a s = some t →
      Reachable default_brightness t


/-- The configuration of the examples in the specification. -/
def exampleCfg : Cfg :=
  { MinBr := 10, MaxBr := 255, Offset := 0, Temp := 1, Speed := 3, Threshold := 30,
    Polling_rate := 100 }

/-- The arguments of the gamma calls of a ramp that starts at `scr` and runs
to `target` one unit per step: the k-th call (from 0) carries the brightness
k + 1 units away from `scr` on the side of `target`. -/
def rampValues (scr target temp : Int) : List (Int × Int) :=
  (List.range (target - scr).natAbs).map
    (fun (k : Nat) => (if scr < target then scr + ((k : Int) + 1) else scr - ((k : Int) + 1), temp))

/-- A schedule from the start with the example configuration. The actuator
blocks on the condition variable; the controller handles two frames of
brightness 1 and the second signals generation 1 with target 109; the
notification wakes the actuator, which ramps from 110 to 109, records the
generation and evaluates the predicate of its wait again (false: `callcnt` and
`old_c` are both 1). Before it blocks, a termination signal arrives, and the
controller finishes its iteration, leaves its loop and makes the final
increment and notification. Then the actuator blocks. -/
def lostWakeupSchedule : List Action :=
  [Action.adj, Action.adj, Action.adj,
   Action.app 1, Action.app 1, Action.app 1, Action.app 1, Action.app 1,
   Action.app 1, Action.app 1, Action.app 1, Action.app 1, Action.app 1, Action.app 1,
   Action.app 1,
   Action.adj, Action.adj, Action.adj, Action.adj, Action.adj, Action.adj,
   Action.adj, Action.adj, Action.adj, Action.adj, Action.adj, Action.adj,
   Action.app 1, Action.app 1,
   Action.signal,
   Action.app 1, Action.app 1,
   Action.adj]

/-- The state `lostWakeupSchedule` ends in. -/
def lostWakeupState : State :=
  { img_br := 1, target_br := 109, img_delta := 0, callcnt := 2, scr_br := 109,
    cfg := exampleCfg, run := true, quit := true, old_imgBr := 1, old_min := 10,
    old_max := 255, old_offset := 0, force := false, f := true, c := 1, old_c := 1,
    sleeptime := 33, notified := 2, woken := false, gamma := [(110, 1), (109, 1)],
    appPc := AppPc.done, adjPc := AdjPc.blocked }

theorem appClamp_target (s : State) :
    (appClamp s).target_br =
      if s.target_br > s.cfg.MaxBr then s.cfg.MaxBr
      else if s.target_br < s.cfg.MinBr then s.cfg.MinBr else s.target_br := by
  unfold appClamp
  split_ifs <;> rfl

theorem appClamp_frame (s : State) :
    (appClamp s).scr_br = s.scr_br ∧ (appClamp s).callcnt = s.callcnt ∧
    (appClamp s).notified = s.notified ∧ (appClamp s).img_delta = s.img_delta ∧
    (appClamp s).cfg = s.cfg ∧ (appClamp s).woken = s.woken ∧
    (appClamp s).force = s.force := by
  unfold appClamp
  split_ifs <;> simp

theorem appDecision_target (db : Int) (s : State) :
    (appDecision db s).target_br = (appClamp (appRaw db s)).target_br := by
  unfold appDecision appUnforce appCompare notifyOne
  split_ifs <;> rfl

theorem appTail_frame (s : State) :
    (appTail s).target_br = s.target_br ∧ (appTail s).callcnt = s.callcnt ∧
    (appTail s).notified = s.notified ∧ (appTail s).img_delta = s.img_delta ∧
    (appTail s).woken = s.woken ∧ (appTail s).scr_br = s.scr_br ∧
    (appTail s).cfg = s.cfg ∧ (appTail s).f = s.f ∧ (appTail s).img_br = s.img_br := by
  unfold appTail
  split_ifs <;> simp

theorem appSample_frame (img : Int) (s : State) :
    (appSample img s).target_br = s.target_br ∧ (appSample img s).callcnt = s.callcnt ∧
    (appSample img s).notified = s.notified ∧ (appSample img s).woken = s.woken ∧
    (appSample img s).scr_br = s.scr_br ∧ (appSample img s).cfg = s.cfg ∧
    (appSample img s).force = s.force ∧ (appSample img s).img_br = img ∧
    (appSample img s).f = true := by
  unfold appSample
  by_cases h : s.f = true
  all_goals simp [h]

theorem appDecision_ne (db : Int) (s : State)
    (h : (appClamp (appRaw db s)).target_br ≠ s.scr_br) :
    (appDecision db s).callcnt = s.callcnt + 1 ∧
    (appDecision db s).notified = s.notified + 1 ∧
    (appDecision db s).img_delta = s.img_delta := by
  have hc := appClamp_frame (appRaw db s)
  have hscr : (appClamp (appRaw db s)).scr_br = s.scr_br := hc.1
  have h1 : (appClamp (appRaw db s)).callcnt = s.callcnt := hc.2.1
  have h2 : (appClamp (appRaw db s)).notified = s.notified := hc.2.2.1
  have h3 : (appClamp (appRaw db s)).img_delta = s.img_delta := hc.2.2.2.1
  unfold appDecision appUnforce appCompare notifyOne
  rw [hscr, if_pos h]
  simp [h1, h2, h3]

theorem appDecision_eq (db : Int) (s : State)
    (h : (appClamp (appRaw db s)).target_br = s.scr_br) :
    (appDecision db s).callcnt = s.callcnt ∧
    (appDecision db s).notified = s.notified ∧
    (appDecision db s).woken = s.woken ∧
    (appDecision db s).img_delta = 0 := by
  have hc := appClamp_frame (appRaw db s)
  have hscr : (appClamp (appRaw db s)).scr_br = s.scr_br := hc.1
  have h1 : (appClamp (appRaw db s)).callcnt = s.callcnt := hc.2.1
  have h2 : (appClamp (appRaw db s)).notified = s.notified := hc.2.2.1
  have h3 : (appClamp (appRaw db s)).woken = s.woken := hc.2.2.2.2.2.1
  have hnn : ¬ (appClamp (appRaw db s)).target_br ≠ s.scr_br := fun hx => hx h
  unfold appDecision appUnforce appCompare notifyOne
  rw [hscr, if_neg hnn]
  simp [h1, h2, h3]

theorem appIteration_of_trigger (db img : Int) (s : State)
    (h : appTrigger (appSample img s) = true) :
    appIteration db img s = appTail (appDecision db (appSample img s)) := by
  unfold appIteration
  simp [h]

theorem appIteration_of_no_trigger (db img : Int) (s : State)
    (h : appTrigger (appSample img s) = false) :
    appIteration db img s = appTail (appSample img s) := by
  unfold appIteration
  simp [h]

theorem adjPace_some (s : State) (h : s.cfg.Speed ≠ 0) :
    adjPace s = some
      (if s.scr_br < s.target_br then
        { s with sleeptime := Int.tdiv (adjInterval s.img_delta s.cfg.Speed) 3, img_delta := 0 }
       else { s with sleeptime := adjInterval s.img_delta s.cfg.Speed, img_delta := 0 }) := by
  unfold adjPace
  rw [if_neg h]

theorem adjPace_img_delta (s t : State) (h : adjPace s = some t) : t.img_delta = 0 := by
  by_cases h0 : s.cfg.Speed = 0
  · simp [adjPace, h0] at h
  · rw [adjPace_some s h0] at h
    have h1 := (Option.some.inj h).symm
    subst h1
    split_ifs <;> rfl

theorem adjPace_sleeptime (s t : State) (h : adjPace s = some t) :
    t.sleeptime = if s.scr_br < s.target_br
      then Int.tdiv (adjInterval s.img_delta s.cfg.Speed) 3
      else adjInterval s.img_delta s.cfg.Speed := by
  by_cases h0 : s.cfg.Speed = 0
  · simp [adjPace, h0] at h
  · rw [adjPace_some s h0] at h
    have h1 := (Option.some.inj h).symm
    subst h1
    split_ifs <;> rfl

theorem adjInterval_bounds (d speed : Int) (hs : 1 ≤ speed) (h0 : 0 ≤ d) (h1 : d ≤ 400) :
    0 ≤ adjInterval d speed ∧ adjInterval d speed ≤ 100 ∧
    0 ≤ Int.tdiv (adjInterval d speed) 3 ∧
    Int.tdiv (adjInterval d speed) 3 ≤ adjInterval d speed := by
  unfold adjInterval
  have e1 : Int.tdiv d 4 = d / 4 := Int.tdiv_eq_ediv h0 (by decide)
  have hx0 : 0 ≤ 100 - d / 4 := by omega
  have e2 : Int.tdiv (100 - d / 4) speed = (100 - d / 4) / speed :=
    Int.tdiv_eq_ediv hx0 (by omega)
  have hy0 : 0 ≤ (100 - d / 4) / speed := Int.ediv_nonneg hx0 (by omega)
  have hy1 : (100 - d / 4) / speed ≤ 100 - d / 4 := Int.ediv_le_self _ hx0
  have e3 : Int.tdiv ((100 - d / 4) / speed) 3 = (100 - d / 4) / speed / 3 :=
    Int.tdiv_eq_ediv hy0 (by decide)
  rw [e1, e2, e3]
  refine ⟨hy0, by omega, by omega, by omega⟩

theorem appDecision_frame (db : Int) (s : State) :
    (appDecision db s).scr_br = s.scr_br ∧ (appDecision db s).cfg = s.cfg ∧
    (appDecision db s).f = s.f ∧ (appDecision db s).img_br = s.img_br ∧
    (appDecision db s).old_min = s.old_min ∧ (appDecision db s).old_max = s.old_max ∧
    (appDecision db s).old_offset = s.old_offset ∧ (appDecision db s).force = false := by
  unfold appDecision appUnforce appCompare notifyOne appClamp appRaw
  split_ifs
  all_goals simp

theorem appIteration_scr_br (db img : Int) (s : State) :
    (appIteration db img s).scr_br = s.scr_br := by
  by_cases hb : appTrigger (appSample img s) = true
  · rw [appIteration_of_trigger db img s hb, (appTail_frame _).2.2.2.2.2.1,
      (appDecision_frame db _).1]
    exact (appSample_frame img s).2.2.2.2.1
  · rw [appIteration_of_no_trigger db img s (by simpa using hb), (appTail_frame _).2.2.2.2.2.1]
    exact (appSample_frame img s).2.2.2.2.1

/-- The state on which line 248 compares the settings with the recorded ones. -/
theorem appIteration_before_tail (db img : Int) (s : State) :
    ∃ u : State, appIteration db img s = appTail u ∧ u.force = false ∧ u.cfg = s.cfg ∧
      u.old_min = s.old_min ∧ u.old_max = s.old_max ∧ u.old_offset = s.old_offset := by
  have hs := appSample_frame img s
  have hso : (appSample img s).old_min = s.old_min ∧ (appSample img s).old_max = s.old_max ∧
      (appSample img s).old_offset = s.old_offset := by
    unfold appSample
    by_cases h : s.f = true
    all_goals simp [h]
  by_cases htr : appTrigger (appSample img s) = true
  · refine ⟨_, appIteration_of_trigger db img s htr, ?_⟩
    have hc : ∀ u : State, (appClamp u).old_min = u.old_min ∧ (appClamp u).old_max = u.old_max ∧
        (appClamp u).old_offset = u.old_offset ∧ (appClamp u).cfg = u.cfg := by
      intro u; unfold appClamp; split_ifs <;> simp
    unfold appDecision appUnforce appCompare notifyOne
    split_ifs
    all_goals simp [hc, appRaw, hs.2.2.2.2.2.1, hso]
  · have hn : appTrigger (appSample img s) = false := by simpa using htr
    refine ⟨_, appIteration_of_no_trigger db img s hn, ?_, hs.2.2.2.2.2.1, hso⟩
    unfold appTrigger at hn
    simp only [Bool.or_eq_false_iff] at hn
    exact hn.2

theorem adjRamp_continue (f : Nat) (s s1 s2 : State) (hg : adjGuard s = true)
    (hm : adjMove s = some s1) (hs : adjSet s1 = some s2) :
    adjRamp (f + 1) s = adjRamp f s2 := by
  simp only [adjRamp, hg, hm, hs, if_true]

theorem adjRamp_reached (f : Nat) (s : State) (hg : adjGuard s = true) (hm : adjMove s = none) :
    adjRamp (f + 1) s = some s := by
  simp only [adjRamp, hg, hm, if_true]

theorem adjGuard_of (s : State) (hc : s.c = s.callcnt) (hr : s.run = true) :
    adjGuard s = true := by
  unfold adjGuard
  rw [hr]
  simp [hc]

theorem adjMove_up (s : State) (h : s.scr_br < s.target_br) :
    adjMove s = some { s with scr_br := s.scr_br + 1 } := by
  unfold adjMove
  rw [if_pos h]

theorem adjMove_down (s : State) (h : s.scr_br > s.target_br) :
    adjMove s = some { s with scr_br := s.scr_br - 1 } := by
  unfold adjMove
  rw [if_neg (by omega), if_pos h]

theorem adjMove_none (s : State) (h : s.scr_br = s.target_br) : adjMove s = none := by
  unfold adjMove
  rw [if_neg (by omega), if_neg (by omega)]

theorem adjSet_some (s : State) (h : s.quit = false) :
    adjSet s = some { s with gamma := s.gamma ++ [(s.scr_br, s.cfg.Temp)] } := by
  unfold adjSet
  rw [h]
  rfl

theorem adjRamp_up (n : Nat) : ∀ (s : State) (fuel : Nat), s.c = s.callcnt → s.run = true →
    s.quit = false → s.target_br = s.scr_br + (n : Int) → n < fuel →
    adjRamp fuel s = some { s with
      scr_br := s.target_br,
      gamma := s.gamma ++ (List.range n).map (fun (k : Nat) => (s.scr_br + ((k : Int) + 1), s.cfg.Temp)) } := by
  induction n with
  | zero =>
    intro s fuel hc hr hq ht hf
    obtain ⟨f, rfl⟩ : ∃ f, fuel = f + 1 := ⟨fuel - 1, by omega⟩
    have heq : s.scr_br = s.target_br := by omega
    rw [adjRamp_reached f s (adjGuard_of s hc hr) (adjMove_none s heq)]
    cases s
    simp only at heq
    subst heq
    simp
  | succ n ih =>
    intro s fuel hc hr hq ht hf
    obtain ⟨f, rfl⟩ : ∃ f, fuel = f + 1 := ⟨fuel - 1, by omega⟩
    have hlt : s.scr_br < s.target_br := by omega
    have key := ih { s with scr_br := s.scr_br + 1, gamma := s.gamma ++ [(s.scr_br + 1, s.cfg.Temp)] }
      f hc hr hq (by simp only; push_cast at ht; omega) (by omega)
    rw [adjRamp_continue f s _ _ (adjGuard_of s hc hr) (adjMove_up s hlt) (adjSet_some _ hq)]
    rw [key]
    simp only [List.range_succ_eq_map, List.map_cons, List.map_map, List.append_assoc,
      List.singleton_append, Nat.cast_zero, zero_add]
    congr 4
    apply List.map_congr_left
    intro k _
    simp only [Function.comp, Nat.cast_succ]
    congr 1
    ring

theorem adjRamp_down (n : Nat) : ∀ (s : State) (fuel : Nat), s.c = s.callcnt → s.run = true →
    s.quit = false → s.target_br = s.scr_br - (n : Int) → n < fuel →
    adjRamp fuel s = some { s with
      scr_br := s.target_br,
      gamma := s.gamma ++ (List.range n).map (fun (k : Nat) => (s.scr_br - ((k : Int) + 1), s.cfg.Temp)) } := by
  induction n with
  | zero =>
    intro s fuel hc hr hq ht hf
    obtain ⟨f, rfl⟩ : ∃ f, fuel = f + 1 := ⟨fuel - 1, by omega⟩
    have heq : s.scr_br = s.target_br := by omega
    rw [adjRamp_reached f s (adjGuard_of s hc hr) (adjMove_none s heq)]
    cases s
    simp only at heq
    subst heq
    simp
  | succ n ih =>
    intro s fuel hc hr hq ht hf
    obtain ⟨f, rfl⟩ : ∃ f, fuel = f + 1 := ⟨fuel - 1, by omega⟩
    have hgt : s.scr_br > s.target_br := by omega
    have key := ih { s with scr_br := s.scr_br - 1, gamma := s.gamma ++ [(s.scr_br - 1, s.cfg.Temp)] }
      f hc hr hq (by simp only; push_cast at ht; omega) (by omega)
    rw [adjRamp_continue f s _ _ (adjGuard_of s hc hr) (adjMove_down s hgt) (adjSet_some _ hq)]
    rw [key]
    simp only [List.range_succ_eq_map, List.map_cons, List.map_map, List.append_assoc,
      List.singleton_append, Nat.cast_zero, zero_add]
    congr 4
    apply List.map_congr_left
    intro k _
    simp only [Function.comp, Nat.cast_succ]
    congr 1
    ring

/-- With no more fuel than the distance to the target the ramp is cut short. -/
theorem adjRamp_short (fuel : Nat) : ∀ (s : State), s.c = s.callcnt → s.run = true →
    s.quit = false → fuel ≤ (s.target_br - s.scr_br).natAbs → adjRamp fuel s = none := by
  induction fuel with
  | zero => intro s _ _ _ _; rfl
  | succ f ih =>
    intro s hc hr hq hf
    by_cases hlt : s.scr_br < s.target_br
    · rw [adjRamp_continue f s _ _ (adjGuard_of s hc hr) (adjMove_up s hlt) (adjSet_some _ hq)]
      exact ih _ hc hr hq (by simp only; omega)
    · have hgt : s.scr_br > s.target_br := by omega
      rw [adjRamp_continue f s _ _ (adjGuard_of s hc hr) (adjMove_down s hgt) (adjSet_some _ hq)]
      exact ih _ hc hr hq (by simp only; omega)

theorem rampValues_length (scr target temp : Int) :
    (rampValues scr target temp).length = (target - scr).natAbs := by
  simp [rampValues]

/-! ## Facts about the interleaved system -/

/-- A schedule that can be run from a reachable state ends in a reachable state. -/
theorem reachable_exec (db : Int) (as : List Action) : ∀ (s t : State), Reachable db s →
    exec db as s = some t → Reachable db t := by
  induction as with
  | nil => intro s t hs h; cases h; exact hs
  | cons a as ih =>
    intro s t hs h
    unfold exec at h
    split at h
    · cases h
    · next u hu => exact ih u t (Reachable.next a hs hu) h

theorem adjStep_loop_quit (s : State) (hpc : s.adjPc = AdjPc.loop) (hq : s.quit = true) :
    adjStep s = some { s with adjPc := AdjPc.done } := by
  simp only [adjStep, hpc, hq]
  rfl

/-- Once the controller has returned and the actuator is blocked without a
notification, no action of anyone changes that. -/
theorem blocked_forever (db : Int) (as : List Action) : ∀ (s u : State),
    s.appPc = AppPc.done → s.adjPc = AdjPc.blocked → s.woken = false →
    exec db as s = some u →
    u.appPc = AppPc.done ∧ u.adjPc = AdjPc.blocked ∧ u.woken = false ∧
      u.callcnt = s.callcnt ∧ u.old_c = s.old_c := by
  induction as with
  | nil => intro s u h1 h2 h3 h; cases h; exact ⟨h1, h2, h3, rfl, rfl⟩
  | cons a as ih =>
    intro s u h1 h2 h3 h
    unfold exec at h
    split at h
    · cases h
    · next v hv =>
      have hv2 : v.appPc = AppPc.done ∧ v.adjPc = AdjPc.blocked ∧ v.woken = false ∧
          v.callcnt = s.callcnt ∧ v.old_c = s.old_c := by
        cases a with
        | app img => simp [step, appStep, h1] at hv
        | adj => simp [step, adjStep, h2, h3] at hv
        | setCfg cfg => cases hv; exact ⟨h1, h2, h3, rfl, rfl⟩
        | setRun b => cases hv; exact ⟨h1, h2, h3, rfl, rfl⟩
        | setForce => cases hv; exact ⟨h1, h2, h3, rfl, rfl⟩
        | setQuit => cases hv; exact ⟨h1, h2, h3, rfl, rfl⟩
        | signal => cases hv; exact ⟨h1, h2, h3, rfl, rfl⟩
      have hu := ih v u hv2.1 hv2.2.1 hv2.2.2.1 h
      exact ⟨hu.1, hu.2.1, hu.2.2.1, by rw [hu.2.2.2.1, hv2.2.2.2.1],
        by rw [hu.2.2.2.2, hv2.2.2.2.2]⟩

/-- When the actuator is already blocked on the condition variable, the final
notification of the controller reaches it and it can go on. -/
theorem shutdown_wakes_blocked (db img : Int) (s : State) (hp : s.appPc = AppPc.shutdown)
    (hb : s.adjPc = AdjPc.blocked) (hi : s.old_c ≤ s.callcnt) :
    ∃ t, appStep db img s = some t ∧ t.woken = true ∧ adjPred t = true ∧
      adjStep t = some { t with adjPc := AdjPc.wait, woken := false } := by
  have e : appStep db img s = some { appShutdown s with appPc := AppPc.done } := by
    simp only [appStep, hp]
  refine ⟨_, e, ?_, ?_, ?_⟩
  · simp [appShutdown, notifyOne, hb]
  · simp only [appShutdown, notifyOne, adjPred, decide_eq_true_eq]
    omega
  · simp [adjStep, appShutdown, notifyOne, hb]

/-- C1: with `MinBr <= MaxBr`, the target computed by the decision branch of
`app` for a frame of brightness `img` is the clamp of
`raw = default_brightness - img + Offset` into `[MinBr, MaxBr]`: `raw` when it
is inside, `MaxBr` when above, `MinBr` when below, hence always inside, and it
is the target the iteration leaves when the branch is entered; with the example
configuration and `default_brightness = 110` it is 30 for a frame of 80 and 10
for a frame of 150. -/
theorem C1_target_clamped (db img : Int) (s : State) (h : s.cfg.MinBr ≤ s.cfg.MaxBr) :
    (s.cfg.MinBr ≤ db - img + s.cfg.Offset ∧ db - img + s.cfg.Offset ≤ s.cfg.MaxBr →
        (appDecision db (appSample img s)).target_br = db - img + s.cfg.Offset) ∧
    (db - img + s.cfg.Offset > s.cfg.MaxBr →
        (appDecision db (appSample img s)).target_br = s.cfg.MaxBr) ∧
    (db - img + s.cfg.Offset < s.cfg.MinBr →
        (appDecision db (appSample img s)).target_br = s.cfg.MinBr) ∧
    s.cfg.MinBr ≤ (appDecision db (appSample img s)).target_br ∧
    (appDecision db (appSample img s)).target_br ≤ s.cfg.MaxBr ∧
    (appTrigger (appSample img s) = true →
        (appIteration db img s).target_br = (appDecision db (appSample img s)).target_br) ∧
    (appDecision 110 (appSample 80 (init 110 exampleCfg true))).target_br = 30 ∧
    (appDecision 110 (appSample 150 (init 110 exampleCfg true))).target_br = 10 := by
  have hs := appSample_frame img s
  have ht : (appDecision db (appSample img s)).target_br =
      if db - img + s.cfg.Offset > s.cfg.MaxBr then s.cfg.MaxBr
      else if db - img + s.cfg.Offset < s.cfg.MinBr then s.cfg.MinBr
      else db - img + s.cfg.Offset := by
    rw [appDecision_target, appClamp_target]
    simp only [appRaw, hs.2.2.2.2.2.1, hs.2.2.2.2.2.2.2.1]
  refine ⟨?_, ?_, ?_, ?_, ?_, ?_, by decide, by decide⟩
  · rintro ⟨h1, h2⟩; rw [ht]; split_ifs <;> omega
  · intro h1; rw [ht, if_pos h1]
  · intro h1; rw [ht]; split_ifs <;> omega
  · rw [ht]; split_ifs <;> omega
  · rw [ht]; split_ifs <;> omega
  · intro htr
    unfold appIteration
    simp only [htr, if_true]
    exact (appTail_frame _).1

/-- C1, at the example configuration with a first frame of brightness 150. -/
theorem C1_target_clamped_witness :
    (10 : Int) ≤ 255 ∧
    (appDecision 110 (appSample 150 (init 110 exampleCfg true))).target_br = 10 :=
  ⟨by decide,
   (C1_target_clamped 110 150 (init 110 exampleCfg true) (by decide)).2.2.1 (by decide)⟩

/-- C2: in an iteration of `app` where the accumulated `img_delta` at the
threshold test is at most `cfg[Threshold]` and `force` is not set, the decision
branch is skipped: `callcnt` and `target_br` are unchanged, no notification is
made, and `img_delta` keeps the value it had at the test (on every iteration
after the first, its old value plus the absolute luminance change). -/
theorem C2_no_trigger_no_signal (db img : Int) (s : State)
    (hd : (appSample img s).img_delta ≤ s.cfg.Threshold) (hf : s.force = false) :
    appTrigger (appSample img s) = false ∧
    (appIteration db img s).callcnt = s.callcnt ∧
    (appIteration db img s).target_br = s.target_br ∧
    (appIteration db img s).notified = s.notified ∧
    (appIteration db img s).woken = s.woken ∧
    (appIteration db img s).img_delta = (appSample img s).img_delta ∧
    (s.f = true →
      (appIteration db img s).img_delta = s.img_delta + ((s.old_imgBr - img).natAbs : Int)) := by
  have hs := appSample_frame img s
  have htr : appTrigger (appSample img s) = false := by
    unfold appTrigger
    rw [hs.2.2.2.2.2.2.1, hf, hs.2.2.2.2.2.1]
    simp [hd]
  have hit : appIteration db img s = appTail (appSample img s) := by
    unfold appIteration
    simp [htr]
  have ht := appTail_frame (appSample img s)
  refine ⟨htr, ?_, ?_, ?_, ?_, ?_, ?_⟩
  · rw [hit, ht.2.1, hs.2.1]
  · rw [hit, ht.1, hs.1]
  · rw [hit, ht.2.2.1, hs.2.2.1]
  · rw [hit, ht.2.2.2.2.1, hs.2.2.2.1]
  · rw [hit, ht.2.2.2.1]
  · intro hfl
    rw [hit, ht.2.2.2.1]
    simp [appSample, hfl]

/-- C2, at the second frame of the example 50, 52 with nothing pending. -/
theorem C2_no_trigger_no_signal_witness :
    (appIteration 110 52 { init 110 exampleCfg true with f := true, old_imgBr := 50 }).callcnt = 0 ∧
    (appIteration 110 52 { init 110 exampleCfg true with f := true, old_imgBr := 50 }).img_delta
      = 2 :=
  ⟨(C2_no_trigger_no_signal 110 52 { init 110 exampleCfg true with f := true, old_imgBr := 50 }
      (by decide) (by decide)).2.1,
   (C2_no_trigger_no_signal 110 52 { init 110 exampleCfg true with f := true, old_imgBr := 50 }
      (by decide) (by decide)).2.2.2.2.2.2 (by decide)⟩

/-- C3: in an iteration of `app` that enters the decision branch, when the
clamped target differs from `scr_br` the branch adds exactly 1 to `callcnt`
and makes exactly one notification; when it equals `scr_br` the branch leaves
`callcnt` alone, makes no notification and sets `img_delta` to 0; either way
the branch leaves `force` false, and the rest of the iteration changes none of
`callcnt`, the notifications or `img_delta`. -/
theorem C3_decision_branch (db img : Int) (s : State)
    (htr : appTrigger (appSample img s) = true) :
    appIteration db img s = appTail (appDecision db (appSample img s)) ∧
    ((appDecision db (appSample img s)).target_br ≠ s.scr_br →
      (appDecision db (appSample img s)).callcnt = s.callcnt + 1 ∧
      (appDecision db (appSample img s)).notified = s.notified + 1 ∧
      (appIteration db img s).callcnt = s.callcnt + 1 ∧
      (appIteration db img s).notified = s.notified + 1) ∧
    ((appDecision db (appSample img s)).target_br = s.scr_br →
      (appDecision db (appSample img s)).callcnt = s.callcnt ∧
      (appDecision db (appSample img s)).notified = s.notified ∧
      (appDecision db (appSample img s)).woken = s.woken ∧
      (appDecision db (appSample img s)).img_delta = 0 ∧
      (appIteration db img s).callcnt = s.callcnt ∧
      (appIteration db img s).notified = s.notified ∧
      (appIteration db img s).img_delta = 0) ∧
    (appDecision db (appSample img s)).force = false := by
  have hs := appSample_frame img s
  have hit := appIteration_of_trigger db img s htr
  have ht := appTail_frame (appDecision db (appSample img s))
  refine ⟨hit, ?_, ?_, ?_⟩
  · intro hne
    rw [appDecision_target, ← hs.2.2.2.2.1] at hne
    have hd := appDecision_ne db (appSample img s) hne
    rw [hs.2.1, hs.2.2.1] at hd
    refine ⟨hd.1, hd.2.1, ?_, ?_⟩
    · rw [hit, ht.2.1, hd.1]
    · rw [hit, ht.2.2.1, hd.2.1]
  · intro heq
    rw [appDecision_target, ← hs.2.2.2.2.1] at heq
    have hd := appDecision_eq db (appSample img s) heq
    rw [hs.2.1, hs.2.2.1, hs.2.2.2.1] at hd
    refine ⟨hd.1, hd.2.1, hd.2.2.1, hd.2.2.2, ?_, ?_, ?_⟩
    · rw [hit, ht.2.1, hd.1]
    · rw [hit, ht.2.2.1, hd.2.1]
    · rw [hit, ht.2.2.2.1, hd.2.2.2]
  · unfold appDecision appUnforce
    rfl

/-- C3, at the third frame of the example 50, 52, 90: the accumulated change
of 40 exceeds the threshold of 30 and the target 20 differs from `scr_br`. -/
theorem C3_decision_branch_witness :
    (appIteration 110 90
      { init 110 exampleCfg true with f := true, old_imgBr := 52, img_delta := 2 }).callcnt = 1 :=
  ((C3_decision_branch 110 90
      { init 110 exampleCfg true with f := true, old_imgBr := 52, img_delta := 2 }
      (by decide)).2.1 (by decide)).2.2.1

/-- C4, as stated, fails: on the frames 50, 52, 90 of the example the third
iteration meets the trigger condition (accumulated change 40 above the
threshold 30), the target 20 differs from `scr_br` = 110, and `img_delta` is
still 40 after the decision. -/
theorem C4_counterexample :
    appTrigger (appSample 90 (appRun 110 [50, 52] (init 110 exampleCfg true))) = true ∧
    (appDecision 110 (appSample 90 (appRun 110 [50, 52] (init 110 exampleCfg true)))).img_delta
      = 40 ∧
    (appIteration 110 90 (appRun 110 [50, 52] (init 110 exampleCfg true))).img_delta = 40 ∧
    ¬ (appIteration 110 90 (appRun 110 [50, 52] (init 110 exampleCfg true))).img_delta = 0 := by
  decide

/-- C4, amended: in an iteration of `app` where the trigger condition holds,
`img_delta` is 0 after the decision when the clamped target equals `scr_br`;
when it differs, the controller adds 1 to `callcnt` and leaves `img_delta` at
the value it had at the threshold test, and it is the actuator that sets
`img_delta` to 0, on lines 89-90, each time it paces a ramp (which it does
whenever `cfg[Speed]` is not 0), the step interval being computed from the
value `img_delta` had before that reset. -/
theorem C4_delta_reset (db img : Int) (s : State)
    (htr : appTrigger (appSample img s) = true) :
    ((appDecision db (appSample img s)).target_br = s.scr_br →
      (appIteration db img s).img_delta = 0) ∧
    ((appDecision db (appSample img s)).target_br ≠ s.scr_br →
      (appIteration db img s).img_delta = (appSample img s).img_delta ∧
      (appIteration db img s).callcnt = s.callcnt + 1) ∧
    (∀ t t2 : State, adjPace t = some t2 →
      t2.img_delta = 0 ∧
      t2.sleeptime = if t.scr_br < t.target_br
        then Int.tdiv (adjInterval t.img_delta t.cfg.Speed) 3
        else adjInterval t.img_delta t.cfg.Speed) ∧
    (∀ t : State, t.cfg.Speed ≠ 0 → ∃ t2, adjPace t = some t2 ∧ t2.img_delta = 0) := by
  have hs := appSample_frame img s
  have hit := appIteration_of_trigger db img s htr
  have ht := appTail_frame (appDecision db (appSample img s))
  refine ⟨?_, ?_, fun t t2 h => ⟨adjPace_img_delta t t2 h, adjPace_sleeptime t t2 h⟩, ?_⟩
  · intro heq
    rw [appDecision_target, ← hs.2.2.2.2.1] at heq
    rw [hit, ht.2.2.2.1]
    exact (appDecision_eq db (appSample img s) heq).2.2.2
  · intro hne
    rw [appDecision_target, ← hs.2.2.2.2.1] at hne
    have hd := appDecision_ne db (appSample img s) hne
    rw [hit, ht.2.2.2.1, ht.2.1, hd.1, hs.2.1]
    exact ⟨hd.2.2, rfl⟩
  · intro t h0
    exact ⟨_, adjPace_some t h0, adjPace_img_delta t _ (adjPace_some t h0)⟩

/-- C4 amended, at a third frame of 90 after 50 and 52: the target 20 differs
from `scr_br`, `img_delta` stays at 40 and `callcnt` moves from 1 to 2. -/
theorem C4_delta_reset_witness :
    (appIteration 110 90 (appRun 110 [50, 52] (init 110 exampleCfg true))).img_delta = 40 ∧
    (appIteration 110 90 (appRun 110 [50, 52] (init 110 exampleCfg true))).callcnt = 2 :=
  (C4_delta_reset 110 90 (appRun 110 [50, 52] (init 110 exampleCfg true)) (by decide)).2.1
    (by decide)

/-- C9: on waking for a generation the actuator computes, for every
`img_delta` it finds and every `cfg[Speed]` other than 0 (where the division of
line 89 has no result), `sleeptime = (100 - img_delta / 4) / cfg[Speed]` with
both divisions truncating toward zero, sets `img_delta` to 0 after that read,
and divides the interval by 3 once more, truncating, exactly when
`scr_br < target_br`. At `img_delta` = 495 and speed 3 the code gives -7 for a
dimming and -2 for a brightening ramp (rounding down would give -8 and -3),
and at `img_delta` = -7 it gives 33 (rounding down would give 34).
For `cfg[Speed] >= 1` and `0 <= img_delta <= 400` the interval lies in
`[0, 100]`, and the interval of a brightening ramp is at most that of a dimming
ramp with the same `img_delta` and `Speed`. -/
theorem C9_step_interval (s : State) :
    (s.cfg.Speed ≠ 0 → ∃ t : State, adjPace s = some t) ∧
    (∀ t : State, adjPace s = some t →
      t.img_delta = 0 ∧
      (s.scr_br < s.target_br →
        t.sleeptime = Int.tdiv (Int.tdiv (100 - Int.tdiv s.img_delta 4) s.cfg.Speed) 3) ∧
      (¬ s.scr_br < s.target_br →
        t.sleeptime = Int.tdiv (100 - Int.tdiv s.img_delta 4) s.cfg.Speed) ∧
      (1 ≤ s.cfg.Speed → 0 ≤ s.img_delta → s.img_delta ≤ 400 →
        0 ≤ t.sleeptime ∧ t.sleeptime ≤ 100 ∧
        (∀ s2 t2 : State, s2.img_delta = s.img_delta → s2.cfg.Speed = s.cfg.Speed →
          s.scr_br < s.target_br → ¬ s2.scr_br < s2.target_br → adjPace s2 = some t2 →
          t.sleeptime ≤ t2.sleeptime))) ∧
    (adjPace { init 110 exampleCfg true with img_delta := 495, target_br := 20 }).map
        (fun t => (t.sleeptime, t.img_delta)) = some (-7, 0) ∧
    (adjPace { init 110 exampleCfg true with img_delta := 495, target_br := 200 }).map
        (fun t => (t.sleeptime, t.img_delta)) = some (-2, 0) ∧
    (adjPace { init 110 exampleCfg true with img_delta := -7, target_br := 20 }).map
        (fun t => (t.sleeptime, t.img_delta)) = some (33, 0) := by
  refine ⟨fun hne => ⟨_, adjPace_some s hne⟩, ?_, by decide, by decide, by decide⟩
  intro t ht
  have hne : s.cfg.Speed ≠ 0 := by
    intro h0
    simp [adjPace, h0] at ht
  rw [adjPace_some s hne] at ht
  have ht2 := (Option.some.inj ht).symm
  subst ht2
  refine ⟨?_, ?_, ?_, ?_⟩
  · split_ifs <;> rfl
  · intro hlt; rw [if_pos hlt]; rfl
  · intro hlt; rw [if_neg hlt]; rfl
  · intro hs h0 h1
    have hb := adjInterval_bounds s.img_delta s.cfg.Speed hs h0 h1
    refine ⟨?_, ?_, ?_⟩
    · split_ifs
      · exact hb.2.2.1
      · exact hb.1
    · split_ifs
      · exact le_trans hb.2.2.2 hb.2.1
      · exact hb.2.1
    · intro s2 t2 hd hsp hlt hge hp
      have hne2 : s2.cfg.Speed ≠ 0 := by omega
      rw [adjPace_some s2 hne2, if_neg hge] at hp
      have ht2 := (Option.some.inj hp).symm
      subst ht2
      rw [if_pos hlt]
      show Int.tdiv (adjInterval s.img_delta s.cfg.Speed) 3
        ≤ adjInterval s2.img_delta s2.cfg.Speed
      rw [hd, hsp]
      exact hb.2.2.2

/-- C9, on waking with `img_delta` = 40 and speed 3 for a dimming ramp:
the interval is (100 - 10) / 3 = 30, inside `[0, 100]`. -/
theorem C9_step_interval_witness :
    ∃ t : State,
      adjPace { init 110 exampleCfg true with img_delta := 40, target_br := 20 } = some t ∧
      t.img_delta = 0 ∧ t.sleeptime = 30 ∧ 0 ≤ t.sleeptime ∧ t.sleeptime ≤ 100 := by
  obtain ⟨t, ht⟩ :=
    (C9_step_interval { init 110 exampleCfg true with img_delta := 40, target_br := 20 }).1
      (by decide)
  have h :=
    (C9_step_interval { init 110 exampleCfg true with img_delta := 40, target_br := 20 }).2.1
      t ht
  have hb := h.2.2.2 (by decide) (by decide) (by decide)
  exact ⟨t, ht, h.1, by rw [h.2.2.1 (by decide)]; decide, hb.1, hb.2.1⟩

/-- C10: whatever the state an iteration of `app` starts from, it ends with
`force` true exactly when one of `cfg[MinBr]`, `cfg[MaxBr]`, `cfg[Offset]`
differs from the value recorded on lines 254-256 by the previous iteration,
and it records the current three; the recorded three start at 0. So from the
start, with one of the three settings non-zero, the first iteration ends with
`force` set and the second enters the decision branch whatever `img_delta` is,
recomputes `target_br` and signals when it differs from `scr_br`; with
`MinBr` = 10, `MaxBr` = 255, `Offset` = 0, `Threshold` = 30 and frames 50, 52
the second frame has `img_delta` = 2 and still signals, with target 58. -/
theorem C10_cold_start_force (db img img2 : Int) (s : State) (cfg : Cfg) (run : Bool) :
    ((appIteration db img s).force = true ↔
      (s.cfg.MinBr ≠ s.old_min ∨ s.cfg.MaxBr ≠ s.old_max ∨ s.cfg.Offset ≠ s.old_offset)) ∧
    ((appIteration db img s).old_min = s.cfg.MinBr ∧
      (appIteration db img s).old_max = s.cfg.MaxBr ∧
      (appIteration db img s).old_offset = s.cfg.Offset) ∧
    ((init db cfg run).old_min = 0 ∧ (init db cfg run).old_max = 0 ∧
      (init db cfg run).old_offset = 0 ∧ (init db cfg run).force = false) ∧
    ((cfg.MinBr ≠ 0 ∨ cfg.MaxBr ≠ 0 ∨ cfg.Offset ≠ 0) →
      (appIteration db img (init db cfg run)).force = true ∧
      appTrigger (appSample img2 (appIteration db img (init db cfg run))) = true ∧
      (appRun db [img, img2] (init db cfg run)).target_br =
        (appClamp (appRaw db (appSample img2 (appIteration db img (init db cfg run))))).target_br ∧
      ((appRun db [img, img2] (init db cfg run)).target_br ≠ (init db cfg run).scr_br →
        (appRun db [img, img2] (init db cfg run)).callcnt =
          (appIteration db img (init db cfg run)).callcnt + 1 ∧
        (appRun db [img, img2] (init db cfg run)).notified =
          (appIteration db img (init db cfg run)).notified + 1)) ∧
    ((appSample 52 (appRun 110 [50] (init 110 exampleCfg true))).img_delta = 2 ∧
      (appRun 110 [50] (init 110 exampleCfg true)).force = true ∧
      (appRun 110 [50] (init 110 exampleCfg true)).callcnt = 0 ∧
      (appRun 110 [50, 52] (init 110 exampleCfg true)).target_br = 58 ∧
      (appRun 110 [50, 52] (init 110 exampleCfg true)).callcnt = 1 ∧
      (appRun 110 [50, 52] (init 110 exampleCfg true)).notified = 1) := by
  have hforce : ∀ (b : Int) (u : State), ((appIteration db b u).force = true ↔
      (u.cfg.MinBr ≠ u.old_min ∨ u.cfg.MaxBr ≠ u.old_max ∨ u.cfg.Offset ≠ u.old_offset)) ∧
      ((appIteration db b u).old_min = u.cfg.MinBr ∧
        (appIteration db b u).old_max = u.cfg.MaxBr ∧
        (appIteration db b u).old_offset = u.cfg.Offset) := by
    intro b u
    obtain ⟨v, hv, hf, hc, h1, h2, h3⟩ := appIteration_before_tail db b u
    rw [hv, ← hc, ← h1, ← h2, ← h3]
    unfold appTail
    split_ifs with hch
    · simp [hch]
    · simp [hch, hf]
  refine ⟨(hforce img s).1, (hforce img s).2, ⟨rfl, rfl, rfl, rfl⟩, ?_, by decide⟩
  intro hnz
  have h1 : (appIteration db img (init db cfg run)).force = true :=
    ((hforce img (init db cfg run)).1).2 hnz
  have hs := appSample_frame img2 (appIteration db img (init db cfg run))
  have htr : appTrigger (appSample img2 (appIteration db img (init db cfg run))) = true := by
    unfold appTrigger
    rw [hs.2.2.2.2.2.2.1, h1]
    simp
  have hrun : appRun db [img, img2] (init db cfg run) =
      appIteration db img2 (appIteration db img (init db cfg run)) := rfl
  have hit := appIteration_of_trigger db img2 _ htr
  have ht := appTail_frame (appDecision db (appSample img2 (appIteration db img (init db cfg run))))
  have hscr := appIteration_scr_br db
  refine ⟨h1, htr, ?_, ?_⟩
  · rw [hrun, hit, ht.1, appDecision_target]
  · intro hne
    rw [hrun, hit, ht.1, appDecision_target] at hne
    have hscr2 : (appSample img2 (appIteration db img (init db cfg run))).scr_br =
        (init db cfg run).scr_br := by
      rw [hs.2.2.2.2.1, hscr]
    rw [← hscr2] at hne
    have hd := appDecision_ne db _ hne
    rw [hrun, hit, ht.2.1, ht.2.2.1, hd.1, hd.2.1, hs.2.1, hs.2.2.1]
    exact ⟨rfl, rfl⟩

/-- C10, at the example configuration with frames 50 then 52. -/
theorem C10_cold_start_force_witness :
    (appIteration 110 50 (init 110 exampleCfg true)).force = true ∧
    appTrigger (appSample 52 (appIteration 110 50 (init 110 exampleCfg true))) = true :=
  ⟨((C10_cold_start_force 110 50 52 (init 110 exampleCfg true) exampleCfg true).2.2.2.1
      (by decide)).1,
   ((C10_cold_start_force 110 50 52 (init 110 exampleCfg true) exampleCfg true).2.2.2.1
      (by decide)).2.1⟩

/-- C5: a ramp of `adjustBrightness` that nothing interrupts (`callcnt` equal
to the captured `c`, `run` true, `quit` false, and the inner loop running on
its own so that `target_br` stays put) ends, from any `scr_br` and `target_br`,
with `scr_br = target_br`; it makes exactly `|target_br - scr_br|` steps (one
more pass of the guard than that is needed and suffices), each step moves
`scr_br` by exactly 1 toward `target_br` and calls the gamma setter once with
the new `scr_br`, every value passed lies between the starting `scr_br` and
`target_br`, and a brightening ramp takes no more steps than a dimming ramp
over the same distance. -/
theorem C5_uninterrupted_ramp (s : State) (fuel : Nat) (hc : s.c = s.callcnt)
    (hr : s.run = true) (hq : s.quit = false)
    (hfuel : (s.target_br - s.scr_br).natAbs < fuel) :
    adjRamp fuel s = some { s with
      scr_br := s.target_br,
      gamma := s.gamma ++ rampValues s.scr_br s.target_br s.cfg.Temp } ∧
    (∀ fuel2 : Nat, fuel2 ≤ (s.target_br - s.scr_br).natAbs → adjRamp fuel2 s = none) ∧
    (rampValues s.scr_br s.target_br s.cfg.Temp).length = (s.target_br - s.scr_br).natAbs ∧
    (∀ k : Nat, k < (s.target_br - s.scr_br).natAbs →
      (rampValues s.scr_br s.target_br s.cfg.Temp)[k]? =
        some (if s.scr_br < s.target_br then s.scr_br + ((k : Int) + 1)
              else s.scr_br - ((k : Int) + 1), s.cfg.Temp)) ∧
    (∀ p ∈ rampValues s.scr_br s.target_br s.cfg.Temp,
      (s.scr_br ≤ p.1 ∧ p.1 ≤ s.target_br) ∨ (s.target_br ≤ p.1 ∧ p.1 ≤ s.scr_br)) ∧
    (∀ t : State, adjMove s = some t →
      (s.scr_br < s.target_br ∧ t.scr_br = s.scr_br + 1) ∨
      (s.scr_br > s.target_br ∧ t.scr_br = s.scr_br - 1)) ∧
    (∀ s2 : State, s.scr_br ≤ s.target_br →
      s2.scr_br - s2.target_br = s.target_br - s.scr_br →
      (rampValues s.scr_br s.target_br s.cfg.Temp).length ≤
        (rampValues s2.scr_br s2.target_br s2.cfg.Temp).length) := by
  refine ⟨?_, ?_, rampValues_length _ _ _, ?_, ?_, ?_, ?_⟩
  · by_cases hlt : s.scr_br < s.target_br
    · have h := adjRamp_up (s.target_br - s.scr_br).natAbs s fuel hc hr hq (by omega) hfuel
      rw [h]
      simp only [rampValues, hlt, if_true]
    · have h := adjRamp_down (s.target_br - s.scr_br).natAbs s fuel hc hr hq (by omega) hfuel
      rw [h]
      simp only [rampValues, hlt, if_false]
  · intro fuel2 h2
    exact adjRamp_short fuel2 s hc hr hq h2
  · intro k hk
    simp only [rampValues, List.getElem?_map, List.getElem?_range hk, Option.map_some']
  · intro p hp
    simp only [rampValues, List.mem_map, List.mem_range] at hp
    obtain ⟨k, hk, rfl⟩ := hp
    by_cases hlt : s.scr_br < s.target_br
    · simp only [hlt, if_true]; omega
    · simp only [hlt, if_false]; omega
  · intro t ht
    by_cases hlt : s.scr_br < s.target_br
    · rw [adjMove_up s hlt] at ht
      have := (Option.some.inj ht).symm
      subst this
      exact Or.inl ⟨hlt, rfl⟩
    · by_cases hgt : s.scr_br > s.target_br
      · rw [adjMove_down s hgt] at ht
        have := (Option.some.inj ht).symm
        subst this
        exact Or.inr ⟨hgt, rfl⟩
      · rw [adjMove_none s (by omega)] at ht
        exact absurd ht (by simp)
  · intro s2 _ h2
    rw [rampValues_length, rampValues_length]
    omega

/-- C5, for a dimming ramp from 110 to 107: three steps, three gamma calls. -/
theorem C5_uninterrupted_ramp_witness :
    adjRamp 4 { init 110 exampleCfg true with target_br := 107 } =
      some { init 110 exampleCfg true with
        target_br := 107, scr_br := 107, gamma := [(110, 1), (109, 1), (108, 1), (107, 1)] } :=
  (C5_uninterrupted_ramp { init 110 exampleCfg true with target_br := 107 } 4
    (by decide) (by decide) (by decide) (by decide)).1.trans (by decide)

/-- C7, where the code departs from it: along `lostWakeupSchedule` the first
notification finds the actuator blocked and wakes it, but the final
notification of the controller arrives after the actuator has found its wait
predicate false and before it blocks, so it wakes nobody. The run ends with
the controller returned, `quit` set, `old_c <= c <= callcnt`, the predicate
`callcnt > old_c` true (2 against 1) and the actuator blocked; from there no
action of anyone lets the actuator take another step. -/
theorem C7_lost_wakeup_at_shutdown :
    exec 110 lostWakeupSchedule (init 110 exampleCfg true) = some lostWakeupState ∧
    Reachable 110 lostWakeupState ∧
    lostWakeupState.appPc = AppPc.done ∧ lostWakeupState.quit = true ∧
    lostWakeupState.notified = 2 ∧
    (lostWakeupState.old_c ≤ lostWakeupState.c ∧ lostWakeupState.c ≤ lostWakeupState.callcnt) ∧
    adjPred lostWakeupState = true ∧
    lostWakeupState.adjPc = AdjPc.blocked ∧
    (∀ (as : List Action) (u : State), exec 110 as lostWakeupState = some u →
      u.adjPc = AdjPc.blocked ∧ adjPred u = true ∧ adjStep u = none) := by
  have he : exec 110 lostWakeupSchedule (init 110 exampleCfg true) = some lostWakeupState := by
    decide
  refine ⟨he, reachable_exec 110 _ _ _ (Reachable.start exampleCfg true) he, rfl, rfl, rfl,
    by decide, by decide, rfl, ?_⟩
  intro as u hu
  have h := blocked_forever 110 as lostWakeupState u rfl rfl rfl hu
  refine ⟨h.2.1, ?_, ?_⟩
  · simp only [adjPred, h.2.2.2.1, h.2.2.2.2]
    decide
  · simp only [adjStep, h.2.1, h.2.2.1]
    rfl

end Gammy
